import Mathlib

/-!
# Verification of the Depi container resolution engine

A shallow embedding of `ContainerInstance` (src/container-instance.class.ts,
the revision with `ContainerOptions`) together with the parts of its
environment it relies on.  Service records live on a record heap (JS objects
are aliased: a child container resolving a root singleton mutates the root's
record in place), instances live on an object heap so that reference identity
(`===`) is observable, and every operation threads an explicit `State` and
returns `Except Err` — JS exceptions do not roll back mutations, so errors
still carry the final state.

Modelling notes, faithful to the source:
* `EMPTY_VALUE` is a dedicated `Value.empty` constructor: the sentinel object
  is distinguishable from every legitimate value, including the falsy ones.
* `ServiceOptions` fields are `Option`s where `none` means the property is
  absent, so the object-literal defaulting followed by the `...serviceOptions`
  spread in `set` is reproduced step by step.
* Handler resolver functions and plain factory functions are embedded as
  data: the decoration layer only ever produces `container => container.get(id)`
  resolvers, and factories are either constants or single `get` calls.
  The `[Constructable, methodName]` factory-array form, lifecycle hooks,
  `getAsync`, `getMany`, `remove`, `init` and `import` are not needed by any
  claim below and are left out; no claim's statement touches them.
* `ContainerRegistry` is not part of the sources; following the spec it is the
  process-wide map from container ids to containers with the root reachable
  under the id `"default"`.  Container identity (`this !== defaultContainer`)
  is compared through registry ids.
* Recursion through `get`/`set`/`getServiceValue` is fuelled; running out of
  fuel is a distinguished error that never occurs in the finite scenarios
  below.
-/

namespace Depi

/-- `ContainerScope`: `'singleton' | 'container' | 'transient'`. -/
inductive Scope where
  | singleton
  | container
  | transient
deriving DecidableEq, Repr

/-- `ServiceIdentifier`: a class reference, a string, or a `Token`.
`undef` models the JS `undefined` identifier that `set` stores when neither
`id` nor `type` is supplied. -/
inductive Id where
  | str (s : String)
  | tok (n : Nat)
  | cls (c : Nat)
  | undef
deriving DecidableEq, Repr

/-- JS runtime values as far as the container observes them.  `empty` is the
`EMPTY_VALUE` sentinel; `obj r` is a reference into the object heap, so `=` on
`Value.obj` is JS `===`. -/
inductive Value where
  | empty
  | vUndefined
  | vNull
  | vBool (b : Bool)
  | vNum (n : Int)
  | vStr (s : String)
  | obj (ref : Nat)
deriving DecidableEq, Repr

/-- JS truthiness for the values above.  The `EMPTY_VALUE` sentinel is an
object, hence truthy. -/
def truthy : Value → Bool
  | .empty => true
  | .vUndefined => false
  | .vNull => false
  | .vBool b => b
  | .vNum n => n != 0
  | .vStr s => s ≠ ""
  | .obj _ => true

/-- A plain-function factory body: `(container, id) => ...`.  Factories in the
claims' scope either return a fixed value or delegate to `container.get`. -/
inductive FactoryBody where
  | constV (v : Value)
  | getId (i : Id)
deriving DecidableEq, Repr

/-- What a handler's `object` field can point at: the class constructor itself
or the class's `.prototype` object. -/
inductive HandlerTarget where
  | cls (c : Nat)
  | proto (c : Nat)
deriving DecidableEq, Repr

/-- `Handler`: `{ object, propertyName?, index?, value }`, where `value` is the
resolver function; the decoration layer produces `container => container.get(r)`
so the resolver is embedded as the identifier `r` it resolves. -/
structure Handler where
  object : HandlerTarget
  propertyName : Option String := none
  index : Option Nat := none
  value : Id
deriving DecidableEq, Repr

/-- One entry of `design:paramtypes` for a constructor parameter: either a
class or a primitive (`String`/`Boolean`/`Number`/`Object`), which
`isPrimitiveParamType` filters out. -/
inductive ParamType where
  | cls (c : Nat)
  | primitive
deriving DecidableEq, Repr

/-- Reflection data of one class: its emitted constructor parameter types and
its superclass (the constructor returned by `Object.getPrototypeOf`). -/
structure ClassDef where
  paramTypes : List ParamType := []
  superClass : Option Nat := none
deriving DecidableEq, Repr

/-- The class table of the program under resolution (static). -/
abbrev Env := List (Nat × ClassDef)

/-- `ServiceMetadata` as stored in a container's `metadataMap`.  `lifecycle`
and `referencedBy` are written but never read on the code paths the claims
cover and are omitted. -/
structure ServiceMetadata where
  id : Id
  type : Option Nat := none
  factory : Option FactoryBody := none
  value : Value := .empty
  multiple : Bool := false
  eager : Bool := false
  async : Bool := false
  scope : Scope := .container
deriving DecidableEq, Repr

/-- `ServiceOptions` as passed to `set`; `none` marks an absent property, so
the `||`-defaulting and the later `...serviceOptions` spread can be modelled
exactly. -/
structure ServiceOptions where
  id : Option Id := none
  type : Option Nat := none
  factory : Option FactoryBody := none
  value : Option Value := none
  multiple : Option Bool := none
  eager : Option Bool := none
  async : Option Bool := none
  scope : Option Scope := none
deriving DecidableEq, Repr

/-- `lookupStrategy` of `ContainerOptions`. -/
inductive LookupStrategy where
  | allowLookup
  | localOnly
deriving DecidableEq, Repr

/-- `ContainerOptions` with the constructor's defaults. -/
structure ContainerOptions where
  lookupStrategy : LookupStrategy := .allowLookup
  allowSingletonLookup : Bool := true
deriving DecidableEq, Repr

/-- A constructed service instance: its class, the constructor arguments the
container resolved for it, and its (mutable) property slots.  The trailing
container argument that `getServiceValue` pushes is received but not stored:
none of the modelled classes read it. -/
structure Obj where
  cls : Nat
  ctorArgs : List Value := []
  fields : List (String × Value) := []
deriving DecidableEq, Repr

/-- The state of one `ContainerInstance`.  `metadataMap` and
`multiServiceIds` are insertion-ordered maps; map values in `metadataMap` are
references into the record heap. -/
structure ContainerState where
  id : String
  metadataMap : List (Id × Nat) := []
  multiServiceIds : List (Id × Scope × List Id) := []
  handlers : List Handler := []
  parent : Option String := none
  resolutionStack : List Id := []
  disposed : Bool := false
  options : ContainerOptions := {}
deriving DecidableEq, Repr

/-- The whole mutable world: the record heap (service metadata objects are
shared by reference), the object heap, the process-wide container registry,
and the counter backing `Token` generation. -/
structure State where
  records : List (Nat × ServiceMetadata) := []
  nextRecord : Nat := 0
  objects : List (Nat × Obj) := []
  nextObj : Nat := 0
  containers : List (String × ContainerState) := []
  nextToken : Nat := 0
deriving DecidableEq, Repr

/-- Errors thrown by the engine.  `circularDependency i p` is
`CircularDependencyError(i, p)`: it carries the offending identifier and a
copy of the resolution stack, oldest first. -/
inductive Err where
  | serviceNotFound (i : Id)
  | cannotInstantiate (i : Id)
  | circularDependency (i : Id) (resolutionPath : List Id)
  | cannotResolveMultiple (i : Id)
  | containerDisposed
  | invalidResetStrategy
  | unknownContainer (cid : String)
  | missingRecord (ref : Nat)
  | outOfFuel
deriving DecidableEq, Repr

/-- Association-list lookup (first match; keys are unique by construction). -/
def alookup {κ α : Type} [DecidableEq κ] : List (κ × α) → κ → Option α
  | [], _ => none
  | (k, v) :: rest, k0 => if k = k0 then some v else alookup rest k0

/-- Association-list update: overwrite in place (JS `Map.set` keeps the
original insertion position), append if the key is new. -/
def aset {κ α : Type} [DecidableEq κ] : List (κ × α) → κ → α → List (κ × α)
  | [], k, v => [(k, v)]
  | (k0, v0) :: rest, k, v =>
      if k0 = k then (k, v) :: rest else (k0, v0) :: aset rest k v

/-- Remove the first occurrence of an identifier from a list — the
`indexOf` / `splice(index, 1)` idiom used on the resolution stack; a no-op
when the identifier is absent. -/
def removeFirst : List Id → Id → List Id
  | [], _ => []
  | x :: rest, i => if x = i then rest else x :: removeFirst rest i

/-- The state-and-exception monad of the engine: JS exceptions leave all
mutations in place, so the state is returned on both branches. -/
def M (α : Type) : Type := State → Except Err α × State

instance : Monad M where
  pure a := fun s => (.ok a, s)
  bind x f := fun s =>
    match x s with
    | (.ok a, s1) => f a s1
    | (.error e, s1) => (.error e, s1)

/-- Throw a JS error. -/
def throwE {α : Type} (e : Err) : M α := fun s => (.error e, s)

/-- Read the whole state. -/
def readS : M State := fun s => (.ok s, s)

/-- Apply a state transformation. -/
def modifyS (f : State → State) : M Unit := fun s => (.ok (), f s)

/-- `try { body } finally { fin }`: the finaliser runs on success and on
error alike. -/
def withFinally {α : Type} (body : M α) (fin : State → State) : M α := fun s =>
  match body s with
  | (r, s1) => (r, fin s1)

/-- Fetch a container from the registry. -/
def getCtr (cid : String) : M ContainerState := fun s =>
  match alookup s.containers cid with
  | some c => (.ok c, s)
  | none => (.error (.unknownContainer cid), s)

/-- Fetch a service record from the record heap. -/
def getRecord (ref : Nat) : M ServiceMetadata := fun s =>
  match alookup s.records ref with
  | some m => (.ok m, s)
  | none => (.error (.missingRecord ref), s)

/-- Replace a container in the registry. -/
def updateCtr (st : State) (cid : String) (f : ContainerState → ContainerState) :
    State :=
  match alookup st.containers cid with
  | some c => { st with containers := aset st.containers cid (f c) }
  | none => st

/-- Monadic container update. -/
def modifyCtr (cid : String) (f : ContainerState → ContainerState) : M Unit :=
  modifyS (fun st => updateCtr st cid f)

/-- Overwrite a record on the record heap (mutating the shared object). -/
def setRecord (ref : Nat) (m : ServiceMetadata) : M Unit :=
  modifyS (fun st => { st with records := aset st.records ref m })

/-- `serviceMetadata.value = v` through a heap reference. -/
def setRecordValue (ref : Nat) (v : Value) : M Unit := fun st =>
  match alookup st.records ref with
  | some m => (.ok (), { st with records := aset st.records ref { m with value := v } })
  | none => (.error (.missingRecord ref), st)

/-- Allocate a fresh record object on the record heap, returning its
reference. -/
def allocRecord (m : ServiceMetadata) : M Nat := fun st =>
  (.ok st.nextRecord,
    { st with records := aset st.records st.nextRecord m
              nextRecord := st.nextRecord + 1 })

/-- Allocate a fresh instance object (`new C(...)`), returning its value. -/
def allocObj (c : Nat) (args : List Value) : M Value := fun st =>
  (.ok (Value.obj st.nextObj),
    { st with objects := aset st.objects st.nextObj { cls := c, ctorArgs := args }
              nextObj := st.nextObj + 1 })

/-- `instance[propertyName] = v`; a no-op when the target is not an object
reference. -/
def setObjField (v : Value) (name : String) (fv : Value) : M Unit :=
  match v with
  | .obj r => modifyS (fun st =>
      match alookup st.objects r with
      | some o => { st with objects := aset st.objects r { o with fields := aset o.fields name fv } }
      | none => st)
  | _ => pure ()

/-- Mint a fresh `Token` (`new Token('MultiMaskToken-...')`). -/
def freshToken : M Id := fun st =>
  (.ok (Id.tok st.nextToken), { st with nextToken := st.nextToken + 1 })

/-- The lazy `parent` getter: an explicit parent wins; otherwise every
non-default container falls back to the default container. -/
def parentOf (c : ContainerState) : Option String :=
  match c.parent with
  | some p => some p
  | none => if c.id = "default" then none else some "default"

/-- The while-loop inside `getAllHandlers`: walk ancestors, guarding against
revisiting a container id. -/
def collectAncestorHandlers (st : State) : Nat → Option String → List String →
    List Handler
  | 0, _, _ => []
  | _, none, _ => []
  | fuel + 1, some cid, seen =>
      if seen.contains cid then []
      else
        match alookup st.containers cid with
        | none => []
        | some c =>
            c.handlers ++ collectAncestorHandlers st fuel (parentOf c) (cid :: seen)

/-- `getAllHandlers()`: this container's handlers followed by every
ancestor's, most local first.  The `seen` set starts empty, exactly as in the
source. -/
def getAllHandlers (st : State) (cid : String) : List Handler :=
  match alookup st.containers cid with
  | none => []
  | some c =>
      c.handlers ++
        collectAncestorHandlers st (st.containers.length + 1) (parentOf c) []

/-- The superclass chain of a class, most derived ancestor first — the
constructor chain `Object.getPrototypeOf` walks.  (The final
`Function.prototype` step of the JS walk can never match a handler and is not
represented.) -/
def superChain (env : Env) : Nat → Nat → List Nat
  | 0, _ => []
  | fuel + 1, c =>
      match (alookup env c).bind (fun d => d.superClass) with
      | some p => p :: superChain env fuel p
      | none => []

/-- `findHandler(target, index)`: exact constructor match first, then the same
search against each ancestor constructor up the chain. -/
def findHandler (env : Env) (st : State) (cid : String) (target : Nat)
    (index : Nat) : Option Handler :=
  let all := getAllHandlers st cid
  match all.find? (fun h => h.object = .cls target && h.index = some index) with
  | some h => some h
  | none =>
      (superChain env (env.length + 1) target).firstM (fun a =>
        all.find? (fun h => h.object = .cls a && h.index = some index))

/-- The applicability walk of `applyPropertyHandlers`: the handler's `object`
must equal some class of the target's chain or that class's `.prototype`. -/
def handlerApplies (env : Env) (h : Handler) (target : Nat) : Bool :=
  (target :: superChain env (env.length + 1) target).any
    (fun cur => h.object = .proto cur || h.object = .cls cur)

/-- `new ContainerInstance(id, parent?, options?)`: options merged over the
defaults `{ lookupStrategy: 'allowLookup', allowSingletonLookup: true }`. -/
def mkContainer (id : String) (parent : Option String)
    (opts : ContainerOptions) : ContainerState :=
  { id := id, parent := parent, options := opts }

/-- `ContainerRegistry.registerContainer`, modelled from the spec (the
registry class is outside the sources): record the container under its id,
keeping an already-registered container (`register()` swallows the error). -/
def registerContainer (st : State) (c : ContainerState) : State :=
  match alookup st.containers c.id with
  | some _ => st
  | none => { st with containers := aset st.containers c.id c }

/-- The process starts with the lazily-created default/root container. -/
def initState : State :=
  { containers := [("default", mkContainer "default" none {})] }

/-- Spreading a full metadata object into a `set` call
(`this.set(clonedService)`): every property is present. -/
def optionsOfRecord (m : ServiceMetadata) : ServiceOptions :=
  { id := some m.id, type := m.type, factory := m.factory, value := some m.value,
    multiple := some m.multiple, eager := some m.eager, async := some m.async,
    scope := some m.scope }

/-- The resolution engine at one fuel level.  The mutually recursive methods
of `ContainerInstance` are gathered in one record; `prev` below is the engine
with one unit of fuel less, so recursion is plain recursion on the fuel. -/
structure Ops where
  set : Env → String → ServiceOptions → M Unit
  setStore : Env → String → ServiceMetadata → M Unit
  get : Env → String → Id → M Value
  getServiceValue : Env → String → Nat → M Value
  constructValue : Env → String → Nat → M Value
  initializeParams : Env → String → Nat → Nat → List ParamType → M (List Value)
  applyPropertyHandlers : Env → String → Nat → Value → M Unit
  applyHandlersLoop : Env → String → Nat → Value → List Handler → M Unit

/-- The engine out of fuel: every operation fails (never reached by the
finite scenarios below). -/
def depletedOps : Ops where
  set := fun _ _ _ => throwE .outOfFuel
  setStore := fun _ _ _ => throwE .outOfFuel
  get := fun _ _ _ => throwE .outOfFuel
  getServiceValue := fun _ _ _ => throwE .outOfFuel
  constructValue := fun _ _ _ => throwE .outOfFuel
  initializeParams := fun _ _ _ _ _ => throwE .outOfFuel
  applyPropertyHandlers := fun _ _ _ _ => throwE .outOfFuel
  applyHandlersLoop := fun _ _ _ _ _ => throwE .outOfFuel

/-- `set(serviceOptions)`.  Singleton registrations are forwarded whole to the
default container; the new metadata merges the literal's defaults with the
caller's options via the `...serviceOptions` spread; `multiple` registrations
are masked behind a fresh token; the rest is `setStoreF`. -/
def setF (prev : Ops) (env : Env) (cid : String) (opts : ServiceOptions) :
    M Unit := do
  let c ← getCtr cid
  if c.disposed then throwE .containerDisposed else
  if opts.scope = some .singleton && cid ≠ "default" then
    prev.set env "default" opts
  else do
    -- the object literal: defaulted fields first ...
    let idDefault : Id :=
      match opts.id with
      | some i => i
      | none => match opts.type with
                | some t => Id.cls t
                | none => Id.undef
    let valueDefault : Value :=
      if truthy (opts.value.getD .vUndefined)
      then opts.value.getD .vUndefined else .empty
    -- ... then `...serviceOptions` overrides every property the caller
    -- supplied, even a falsy one (this is what lets falsy literal values
    -- survive the `|| EMPTY_VALUE` defaulting).
    let m0 : ServiceMetadata :=
      { id := match opts.id with | some i => i | none => idDefault
        type := opts.type
        factory := opts.factory
        value := match opts.value with | some v => v | none => valueDefault
        multiple := opts.multiple.getD false
        eager := opts.eager.getD false
        async := opts.async.getD false
        scope := opts.scope.getD .container }
    if opts.multiple.getD false then do
      let maskedToken ← freshToken
      let c1 ← getCtr cid
      match alookup c1.multiServiceIds m0.id with
      | some (sc, toks) =>
          modifyCtr cid (fun c2 =>
            { c2 with multiServiceIds := (
                aset c2.multiServiceIds m0.id (sc, toks ++ [maskedToken])) })
      | none =>
          modifyCtr cid (fun c2 =>
            { c2 with multiServiceIds := (
                aset c2.multiServiceIds m0.id (m0.scope, [maskedToken])) })
      prev.setStore env cid { m0 with id := maskedToken, multiple := false }
    else
      prev.setStore env cid m0

/-- The tail of `set`: store the built metadata (merging into an existing
record in place, `Object.assign`, preserving record-object identity) and
trigger eager construction for an eager, non-transient, non-async record. -/
def setStoreF (prev : Ops) (env : Env) (cid : String) (m : ServiceMetadata) :
    M Unit := do
  let c ← getCtr cid
  match alookup c.metadataMap m.id with
  | some ref => setRecord ref m
  | none => do
      let ref ← allocRecord m
      modifyCtr cid (fun c1 =>
        { c1 with metadataMap := aset c1.metadataMap m.id ref })
  if m.eager && m.scope ≠ .transient && !m.async then do
    let _ ← prev.get env cid m.id
    pure ()
  else pure ()

/-- `get(identifier)`: disposal guard; external lookup allowed only when the
strategy is not `localOnly` and `allowSingletonLookup` holds; the global
(root) record wins only when singleton-scoped; masked multi records are
rejected; otherwise resolve the preferred record, or clone a global record
down into this container (value reset to `EMPTY` first), resolve locally and
persist the produced value into the clone. -/
def getF (prev : Ops) (env : Env) (cid : String) (i : Id) : M Value := do
  let c ← getCtr cid
  if c.disposed then throwE .containerDisposed else do
  let root ← getCtr "default"
  let allowExternalLookup :=
    c.options.lookupStrategy ≠ .localOnly && c.options.allowSingletonLookup
  let globalRef := if allowExternalLookup then alookup root.metadataMap i else none
  let localRef := alookup c.metadataMap i
  let st ← readS
  let globalScope := (globalRef.bind (alookup st.records)).map (fun m => m.scope)
  let metaRef := if globalScope = some .singleton then globalRef else localRef
  match metaRef with
  | some ref => do
      let m ← getRecord ref
      if m.multiple then throwE (.cannotResolveMultiple i)
      else
        -- (a `console.warn` fires here for async records; no state effect)
        prev.getServiceValue env cid ref
  | none =>
      match globalRef with
      | some gref =>
          if cid ≠ "default" then do
            let g ← getRecord gref
            -- const clonedService = { ...global }; clonedService.value = EMPTY_VALUE;
            let cloneRef ← allocRecord { g with value := .empty }
            prev.set env cid (optionsOfRecord { g with value := .empty })
            let v ← prev.getServiceValue env cid cloneRef
            let clone1 ← getRecord cloneRef
            -- this.set({ ...clonedService, value });
            prev.set env cid { optionsOfRecord clone1 with value := some v }
            pure v
          else throwE (.serviceNotFound i)
      | none => throwE (.serviceNotFound i)

/-- `getServiceValue(serviceMetadata)`: memoised value short-circuit; neither
factory nor type is `CannotInstantiateValueError`; an id already on this
container's resolution stack is `CircularDependencyError(id, [...stack])`;
otherwise push the id and run the construction body under a `finally` that
splices the id back out. -/
def getServiceValueF (prev : Ops) (env : Env) (cid : String) (ref : Nat) :
    M Value := do
  let m ← getRecord ref
  if m.value ≠ .empty then pure m.value
  else if m.factory = none && m.type = none then
    throwE (.cannotInstantiate m.id)
  else do
    let c ← getCtr cid
    if m.id ∈ c.resolutionStack then
      throwE (.circularDependency m.id c.resolutionStack)
    else do
      modifyCtr cid (fun c1 =>
        { c1 with resolutionStack := c1.resolutionStack ++ [m.id] })
      withFinally (prev.constructValue env cid ref)
        (fun st => updateCtr st cid (fun c1 =>
          { c1 with resolutionStack := removeFirst c1.resolutionStack m.id }))

/-- The `try` body of `getServiceValue`: run the factory or `new` the type
(resolved constructor parameters plus the container itself as trailing
argument), persist the value unless transient, splice the id off the
resolution stack before property handlers, then apply property handlers. -/
def constructValueF (prev : Ops) (env : Env) (cid : String) (ref : Nat) :
    M Value := do
  let m ← getRecord ref
  let v1 ← match m.factory with
    | some (.constV v) => pure v
    | some (.getId i) => prev.get env cid i
    | none => pure Value.empty
  -- `if (!serviceMetadata.factory && serviceMetadata.type)` — re-read the
  -- live record, as the source does.
  let m2 ← getRecord ref
  let v2 ←
    if m2.factory = none then
      match m2.type with
      | some t => do
          let paramTypes := ((alookup env t).getD {}).paramTypes
          let params ← prev.initializeParams env cid t 0 paramTypes
          -- params.push(this): the container as extra trailing argument;
          -- the modelled classes ignore it
          allocObj t params
      | none => pure v1
    else pure v1
  let m3 ← getRecord ref
  if m3.scope ≠ .transient && v2 ≠ .empty then setRecordValue ref v2
  else pure ()
  if v2 = .empty then throwE (.cannotInstantiate m3.id)
  else do
    -- remove from the resolution stack BEFORE applying property handlers
    modifyCtr cid (fun c1 =>
      { c1 with resolutionStack := removeFirst c1.resolutionStack m3.id })
    match m3.type with
    | some t => do
        prev.applyPropertyHandlers env cid t v2
        pure v2
    | none => pure v2

/-- `initializeParams(target, paramTypes)`: per parameter index, a matching
constructor handler wins, otherwise a non-primitive emitted type is resolved
through `get`, otherwise `undefined`. -/
def initializeParamsF (prev : Ops) (env : Env) (cid : String) (target : Nat)
    (index : Nat) (paramTypes : List ParamType) : M (List Value) :=
  match paramTypes with
  | [] => pure []
  | pt :: rest => do
      let st ← readS
      let v ← match findHandler env st cid target index with
        | some h => prev.get env cid h.value
        | none =>
            match pt with
            | .cls t => prev.get env cid (Id.cls t)
            | .primitive => pure Value.vUndefined
      let vs ← prev.initializeParams env cid target (index + 1) rest
      pure (v :: vs)

/-- `applyPropertyHandlers(target, instance)`: for every property handler
(local and inherited), if its `object` matches the target class or any of its
ancestors (class or prototype form), assign
`instance[propertyName] = handler.value(this)`. -/
def applyPropertyHandlersF (prev : Ops) (env : Env) (cid : String)
    (target : Nat) (v : Value) : M Unit := do
  let st ← readS
  prev.applyHandlersLoop env cid target v (getAllHandlers st cid)

/-- The `forEach` loop of `applyPropertyHandlers`. -/
def applyHandlersLoopF (prev : Ops) (env : Env) (cid : String) (target : Nat)
    (v : Value) (hs : List Handler) : M Unit :=
  match hs with
  | [] => pure ()
  | h :: rest => do
      if h.index.isSome then prev.applyHandlersLoop env cid target v rest
      else if handlerApplies env h target then
        match h.propertyName with
        | some pn => do
            let pv ← prev.get env cid h.value
            setObjField v pn pv
            prev.applyHandlersLoop env cid target v rest
        | none => prev.applyHandlersLoop env cid target v rest
      else prev.applyHandlersLoop env cid target v rest

/-- One step of the engine: wire every method body to the engine with one
unit of fuel less. -/
def stepOps (prev : Ops) : Ops where
  set := setF prev
  setStore := setStoreF prev
  get := getF prev
  getServiceValue := getServiceValueF prev
  constructValue := constructValueF prev
  initializeParams := initializeParamsF prev
  applyPropertyHandlers := applyPropertyHandlersF prev
  applyHandlersLoop := applyHandlersLoopF prev

/-- The engine with the given amount of fuel. -/
def ops : Nat → Ops
  | 0 => depletedOps
  | fuel + 1 => stepOps (ops fuel)

/-- `set(serviceOptions)` at a fuel level. -/
def set (fuel : Nat) : Env → String → ServiceOptions → M Unit := (ops fuel).set

/-- `get(identifier)` at a fuel level. -/
def get (fuel : Nat) : Env → String → Id → M Value := (ops fuel).get

/-- `getServiceValue(serviceMetadata)` at a fuel level, the record given by
its heap reference. -/
def getServiceValue (fuel : Nat) : Env → String → Nat → M Value :=
  (ops fuel).getServiceValue

/-- `has(identifier)`: only this container's own record store and
multi-registration map are consulted. -/
def has (cid : String) (i : Id) : M Bool := do
  let c ← getCtr cid
  if c.disposed then throwE .containerDisposed
  else pure ((alookup c.metadataMap i).isSome || (alookup c.multiServiceIds i).isSome)

/-- `registerHandler(handler)`: appends to this container's own handler list.
Note: the source has no disposal guard here. -/
def registerHandler (cid : String) (h : Handler) : M Unit := do
  let _ ← getCtr cid
  modifyCtr cid (fun c => { c with handlers := c.handlers ++ [h] })

/-- `createChild(childId)`: a new container whose parent is this one, with
default options, registered in the process-wide registry. -/
def createChild (cid : String) (childId : String) : M Unit := do
  let c ← getCtr cid
  if c.disposed then throwE .containerDisposed
  else modifyS (fun st => registerContainer st (mkContainer childId (some cid) {}))

/-- `new ContainerInstance(id, parent?, options?)` followed by
`register()`. -/
def newContainer (id : String) (parent : Option String)
    (opts : ContainerOptions) : M Unit :=
  modifyS (fun st => registerContainer st (mkContainer id parent opts))

/-- `disposeServiceInstance(serviceMetadata, force)`: reset the value to
`EMPTY` only when it can be re-created (a type or factory exists) or when
forced; a `dispose` method on the instance would be invoked first (the
modelled instances expose none). -/
def disposeServiceInstance (cid : String) (ref : Nat) (force : Bool := false) :
    M Unit := do
  let c ← getCtr cid
  if c.disposed then throwE .containerDisposed
  else do
    let m ← getRecord ref
    if force || m.type.isSome || m.factory.isSome then setRecordValue ref .empty
    else pure ()

/-- The reset strategies accepted by `reset`. -/
inductive ResetStrategy where
  | resetValue
  | resetServices
deriving DecidableEq, Repr

/-- `reset({ strategy })`: `resetValue` disposes each record's instance in
place; `resetServices` additionally clears the record store, the
multi-registration map and this container's own handler list. -/
def reset (cid : String) (strategy : ResetStrategy) : M Unit := do
  let c ← getCtr cid
  if c.disposed then throwE .containerDisposed
  else
    match strategy with
    | .resetValue =>
        c.metadataMap.forM (fun e => disposeServiceInstance cid e.2)
    | .resetServices => do
        c.metadataMap.forM (fun e => disposeServiceInstance cid e.2)
        modifyCtr cid (fun c1 =>
          { c1 with metadataMap := [], multiServiceIds := [], handlers := [] })

/-- `disposeServiceInstanceAsync(serviceMetadata)`: nothing for an `EMPTY`
value; otherwise, for a re-creatable record, run teardown (no modelled
instance declares `onDestroy` or `dispose`) and reset the value to `EMPTY`. -/
def disposeServiceInstanceAsync (cid : String) (ref : Nat) : M Unit := do
  let c ← getCtr cid
  if c.disposed then throwE .containerDisposed
  else do
    let m ← getRecord ref
    if m.value = .empty then pure ()
    else if m.type.isSome || m.factory.isSome then setRecordValue ref .empty
    else pure ()

/-- `dispose()`: dispose every record (awaiting the per-record promises),
clear both maps, then mark the container disposed.  Note: the source has no
disposal guard at the top, so a second call runs over the already-cleared
maps and succeeds silently. -/
def dispose (cid : String) : M Unit := do
  let c ← getCtr cid
  c.metadataMap.forM (fun e => disposeServiceInstanceAsync cid e.2)
  modifyCtr cid (fun c1 =>
    { c1 with metadataMap := [], multiServiceIds := [], disposed := true })

/-- Decidable equality of run results (Lean's core does not derive it for
Except). -/
instance instExceptDecidableEq {e a : Type} [DecidableEq e] [DecidableEq a] :
    DecidableEq (Except e a) := fun x y =>
  match x, y with
  | .ok u, .ok v => if h : u = v then isTrue (by rw [h]) else isFalse (by simp [h])
  | .error u, .error v => if h : u = v then isTrue (by rw [h]) else isFalse (by simp [h])
  | .ok _, .error _ => isFalse (by simp)
  | .error _, .ok _ => isFalse (by simp)

/-!
## Concrete scenarios

A small class table and the executable scenarios the theorems below evaluate.
Classes `0` and `1` have no constructor parameters; classes `2` and `3`
constructor-depend on each other (their `design:paramtypes` name each other);
classes `4` and `5` are plain dependency-free classes.
-/

/-- The class table shared by the scenarios. -/
def envT : Env :=
  [(0, {}), (1, {}), (2, { paramTypes := [.cls 3] }),
   (3, { paramTypes := [.cls 2] }), (4, {}), (5, {})]

/-- C1 scenario: a singleton-scoped class registered through a child
container, then resolved from two children and the root, twice from the
first child. -/
def singletonScenario : M (Value × Value × Value × Value) := do
  newContainer "c1" none {}
  newContainer "c2" none {}
  set 20 envT "c1" { id := some (.cls 0), type := some 0, scope := some .singleton }
  let v1 ← get 20 envT "c1" (.cls 0)
  let v2 ← get 20 envT "c2" (.cls 0)
  let v3 ← get 20 envT "default" (.cls 0)
  let v4 ← get 20 envT "c1" (.cls 0)
  pure (v1, v2, v3, v4)

/-- The state right after the singleton registration of the C1 scenario:
used to observe where the record was physically stored. -/
def singletonSetState : State :=
  ((do
    newContainer "c1" none {}
    newContainer "c2" none {}
    set 20 envT "c1" { id := some (.cls 0), type := some 0, scope := some .singleton }
      : M Unit) initState).2

/-- C2 scenario: classes `2` and `3` depend on each other through their
constructors; both are registered on the root and class `2` is resolved. -/
def ctorCycleScenario : M Value := do
  set 20 envT "default" { id := some (.cls 2), type := some 2 }
  set 20 envT "default" { id := some (.cls 3), type := some 3 }
  get 20 envT "default" (.cls 2)

/-- C3 scenario: the same mutual dependency expressed through property
injection — a handler on class `0` injecting class `1` into property b, and a
handler on class `1` injecting class `0` into property a. -/
def propCycleScenario : M Value := do
  set 20 envT "default" { id := some (.cls 0), type := some 0 }
  set 20 envT "default" { id := some (.cls 1), type := some 1 }
  registerHandler "default" { object := .cls 0, propertyName := some "b", value := .cls 1 }
  registerHandler "default" { object := .cls 1, propertyName := some "a", value := .cls 0 }
  get 20 envT "default" (.cls 0)

/-- C4 scenario: a transient class registered on the root, resolved twice
from the root and then twice from a child container (the clone-down path). -/
def transientScenario : M (Value × Value × Value × Value) := do
  newContainer "c1" none {}
  set 20 envT "default" { id := some (.str "T"), type := some 4, scope := some .transient }
  let r1 ← get 20 envT "default" (.str "T")
  let r2 ← get 20 envT "default" (.str "T")
  let w1 ← get 20 envT "c1" (.str "T")
  let w2 ← get 20 envT "c1" (.str "T")
  pure (r1, r2, w1, w2)

/-- C5 scenario: a container with one registration, disposed. -/
def disposedState : State :=
  ((do
    newContainer "c" none {}
    set 20 envT "c" { id := some (.str "s"), value := some (.vStr "x") }
    dispose "c" : M Unit) initState).2

/-- A handler used to probe `registerHandler` after disposal. -/
def probeHandler : Handler :=
  { object := .cls 0, propertyName := some "p", value := .str "s" }

/-- C6 scenario: root holds a container-scoped class under id X; a container
with `lookupStrategy: allowLookup` but `allowSingletonLookup: false` resolves
it. -/
def gatedLookupScenario : M Value := do
  newContainer "c" none { allowSingletonLookup := false }
  set 20 envT "default" { id := some (.str "X"), type := some 5 }
  get 20 envT "c" (.str "X")

/-- C6 control: the same resolution with default options (clone-down works). -/
def ungatedLookupScenario : M Value := do
  newContainer "c" none {}
  set 20 envT "default" { id := some (.str "X"), type := some 5 }
  get 20 envT "c" (.str "X")

/-- C6 control: a globally-registered singleton behind the same gated
container. -/
def gatedSingletonScenario : M Value := do
  newContainer "c" none { allowSingletonLookup := false }
  set 20 envT "default" { id := some (.str "S"), value := some (.vStr "v"), scope := some .singleton }
  get 20 envT "c" (.str "S")

/-- C6 control: a local registration on the gated container itself. -/
def gatedLocalScenario : M Value := do
  newContainer "c" none { allowSingletonLookup := false }
  set 20 envT "c" { id := some (.str "L"), value := some (.vNum 42) }
  get 20 envT "c" (.str "L")

/-- C7 scenario: id X registered on an intermediate (non-root) parent, then
resolved from its child, both created with `createChild` (default
options). -/
def intermediateParentScenario : M Value := do
  createChild "default" "c1"
  createChild "c1" "c2"
  set 20 envT "c1" { id := some (.str "X"), type := some 5 }
  get 20 envT "c2" (.str "X")

/-- C7 control: id X registered on the root, resolved from an `allowLookup`
child. -/
def rootFallbackScenario : M Value := do
  createChild "default" "c1"
  set 20 envT "default" { id := some (.str "X"), type := some 5 }
  get 20 envT "c1" (.str "X")

/-- C7 control: the same lookup from a `localOnly` container. -/
def localOnlyScenario : M Value := do
  newContainer "c1" none { lookupStrategy := .localOnly }
  set 20 envT "default" { id := some (.str "X"), type := some 5 }
  get 20 envT "c1" (.str "X")

/-- One handler registered on container c1 of the reset scenario. -/
def resetHandler1 : Handler :=
  { object := .cls 0, propertyName := some "p", value := .str "a" }

/-- One handler registered on the unrelated container c2 of the reset
scenario. -/
def resetHandler2 : Handler :=
  { object := .cls 5, propertyName := some "q", value := .str "b" }

/-- C8 scenario: container c1 holds a constructed class record, a literal
value record and a multi-registration; c1 and the unrelated c2 each own one
handler. -/
def resetBaseState : State :=
  ((do
    newContainer "c1" none {}
    newContainer "c2" none {}
    set 20 envT "c1" { id := some (.str "a"), type := some 0 }
    set 20 envT "c1" { id := some (.str "v"), value := some (.vNum 42) }
    set 20 envT "c1" { id := some (.str "m"), value := some (.vNum 7), multiple := some true }
    registerHandler "c1" resetHandler1
    registerHandler "c2" resetHandler2
    let _ ← get 20 envT "c1" (.str "a")
    pure () : M Unit) initState).2

/-- The C8 scenario after a resetValue reset of c1. -/
def resetValueState : State := ((reset "c1" .resetValue : M Unit) resetBaseState).2

/-- The C8 scenario after a resetServices reset of c1. -/
def resetServicesState : State :=
  ((reset "c1" .resetServices : M Unit) resetBaseState).2

/-- C9 scenario: a singleton value registered on the root, probed from a
child with `has` and then `get`. -/
def hasVsGetScenario : M (Bool × Value) := do
  newContainer "c" none {}
  set 20 envT "default" { id := some (.str "S"), value := some (.vStr "v"), scope := some .singleton }
  let hb ← has "c" (.str "S")
  let v ← get 20 envT "c" (.str "S")
  pure (hb, v)

/-- C10 scenario: register a literal value on the root, then resolve it. -/
def literalValueScenario (v : Value) : M Value := do
  set 2 envT "default" { id := some (.str "k"), value := some v }
  get 2 envT "default" (.str "k")

/-- A state whose root container holds an already-constructed singleton
record under id S, plus a fresh child container c — used to instantiate the
general part of the C1 theorem. -/
def cachedSingletonState : State :=
  { records := [(0, { id := .str "S", value := .vStr "v", scope := .singleton })],
    nextRecord := 1,
    containers := [("default", { id := "default", metadataMap := [(.str "S", 0)] }),
                   ("c", { id := "c" })] }

/-- A state whose root container is mid-resolution of id x (the id is on the
resolution stack and its record is still unconstructed) — used to instantiate
the general part of the C2 theorem. -/
def midResolutionState : State :=
  { records := [(0, { id := .str "x", type := some 9 })],
    nextRecord := 1,
    containers := [("default", { id := "default", resolutionStack := [.str "x"] })] }

/-!
## Theorems
-/

/-- Running a bind: the second computation sees the state the first one left
behind, on success and on error alike. -/
theorem bind_apply {α β : Type} (x : M α) (g : α → M β) (s : State) :
    (x >>= g) s =
      match x s with
      | (.ok a, s1) => g a s1
      | (.error e, s1) => (.error e, s1) := rfl

/-- Running a pure computation leaves the state unchanged. -/
theorem pure_apply {α : Type} (a : α) (s : State) :
    (pure a : M α) s = (.ok a, s) := rfl

/-- C1: singleton records are physically stored only in the default/root
container (a child's `set` with singleton scope forwards the whole call to
the root), and `get(id) === get(id)` holds for singletons across containers.
First conjunct, in general: in any state whose root holds a constructed
singleton record for an identifier, `get` from any non-disposed container
whose options permit singleton lookup returns exactly the cached instance
and leaves the state untouched — hence any two such calls, from the same or
different containers, return the identical instance.  The remaining
conjuncts run the concrete scenario: the registration through child c1
lands in the root's record store and not in c1's, and the four `get` calls
(c1 twice, c2, root) all return the one instance object 0. -/
theorem C1_singleton_identity :
    (∀ (f : Nat) (env : Env) (st : State) (cid : String)
       (c root : ContainerState) (i : Id) (ref : Nat) (m : ServiceMetadata)
       (w : Value),
       alookup st.containers cid = some c → c.disposed = false →
       alookup st.containers "default" = some root →
       c.options.lookupStrategy = .allowLookup →
       c.options.allowSingletonLookup = true →
       alookup root.metadataMap i = some ref →
       alookup st.records ref = some m →
       m.scope = .singleton → m.multiple = false →
       m.value = w → w ≠ .empty →
       get (f + 2) env cid i st = (.ok w, st)) ∧
    (alookup singletonSetState.containers "default").map
        (fun c => c.metadataMap) = some [(.cls 0, 0)] ∧
    (alookup singletonSetState.containers "c1").map
        (fun c => c.metadataMap) = some [] ∧
    (singletonScenario initState).1 = .ok (.obj 0, .obj 0, .obj 0, .obj 0) := by
  refine ⟨?_, by decide, by decide, by decide⟩
  intro f env st cid c root i ref m w hc hd hroot hls hsl href hm hs hmul hval hw
  simp [get, ops, stepOps, getF, getServiceValueF, bind_apply, pure_apply,
        getCtr, getRecord, readS, hc, hd, hroot, hls, hsl, href, hm, hs, hmul,
        hval, hw, throwE]

/-- Witness for C1: the general conjunct applied to the concrete state with
a cached root singleton under id S, read from the child c. -/
theorem C1_singleton_identity_witness :
    get 20 envT "c" (.str "S") cachedSingletonState =
      (.ok (.vStr "v"), cachedSingletonState) :=
  C1_singleton_identity.1 18 envT cachedSingletonState "c"
    { id := "c" } { id := "default", metadataMap := [(.str "S", 0)] }
    (.str "S") 0 { id := .str "S", value := .vStr "v", scope := .singleton }
    (.vStr "v") (by decide) (by decide) (by decide) (by decide) (by decide)
    (by decide) (by decide) (by decide) (by decide) (by decide) (by decide)

/-- C2: the constructor-cycle detector.  First conjunct, in general: when a
record's id is already on the resolving container's resolution stack (and
its value is still unconstructed with a factory or type present),
`getServiceValue` throws `CircularDependencyError` carrying the offending id
together with the current stack, oldest first, leaving the state untouched.
The remaining conjuncts run the two mutually constructor-dependent classes 2
and 3: `get` of class 2 fails with a circular-dependency error whose
resolution path is the stack [class 2, class 3] — containing both classes. -/
theorem C2_constructor_cycle_error :
    (∀ (f : Nat) (env : Env) (st : State) (cid : String) (ref : Nat)
       (m : ServiceMetadata) (c : ContainerState),
       alookup st.records ref = some m → m.value = .empty →
       ¬(m.factory = none ∧ m.type = none) →
       alookup st.containers cid = some c → m.id ∈ c.resolutionStack →
       getServiceValue (f + 1) env cid ref st =
         (.error (.circularDependency m.id c.resolutionStack), st)) ∧
    (ctorCycleScenario initState).1 =
      .error (.circularDependency (.cls 2) [.cls 2, .cls 3]) ∧
    Id.cls 2 ∈ [Id.cls 2, Id.cls 3] ∧ Id.cls 3 ∈ [Id.cls 2, Id.cls 3] := by
  refine ⟨?_, by decide, by decide, by decide⟩
  intro f env st cid ref m c hm hv hft hc hstk
  simp [getServiceValue, ops, stepOps, getServiceValueF, bind_apply, getRecord,
        hm, hv, getCtr, hc, throwE, hstk, hft]

/-- Witness for C2: the general conjunct applied to the concrete state in
which the root is already mid-resolution of id x. -/
theorem C2_constructor_cycle_error_witness :
    getServiceValue 1 [] "default" 0 midResolutionState =
      (.error (.circularDependency (.str "x") [.str "x"]), midResolutionState) :=
  C2_constructor_cycle_error.1 0 [] midResolutionState "default" 0
    { id := .str "x", type := some 9 }
    { id := "default", resolutionStack := [.str "x"] }
    (by decide) (by decide) (by decide) (by decide) (by decide)

set_option maxHeartbeats 2000000 in
/-- C3: property-level mutual dependency resolves.  With class 0 property-
injecting class 1 (property b) and class 1 property-injecting class 0
(property a), `get` of class 0 succeeds: it returns the instance object 0,
whose property b holds the class-1 instance object 1, whose property a holds
object 0 again — exactly the A instance that was cached into the record
before property handlers ran (last conjunct). -/
theorem C3_property_cycle_tolerated :
    (propCycleScenario initState).1 = .ok (.obj 0) ∧
    alookup (propCycleScenario initState).2.objects 0 =
      some { cls := 0, ctorArgs := [], fields := [("b", .obj 1)] } ∧
    alookup (propCycleScenario initState).2.objects 1 =
      some { cls := 1, ctorArgs := [], fields := [("a", .obj 0)] } ∧
    (alookup (propCycleScenario initState).2.records 0).map (fun m => m.value) =
      some (.obj 0) := by
  decide

set_option maxHeartbeats 2000000 in
/-- C4, evaluated at the failing input: a transient class registered on the
root and resolved from a child.  The two root resolutions are fresh and
distinct (objects 0 and 1) and the root record's value stays `EMPTY`; but
the two child resolutions both return object 2 — the clone-down path stores
the produced value back into the child's cloned record (last conjunct), so
the second `get` finds a non-`EMPTY` value and returns the cached instance,
contradicting the claim (and the source's own note that transient records
never have a value set). -/
theorem C4_transient_clone_down_caches :
    (transientScenario initState).1 = .ok (.obj 0, .obj 1, .obj 2, .obj 2) ∧
    (alookup (transientScenario initState).2.records 0).map (fun m => m.value) =
      some .empty ∧
    (alookup (transientScenario initState).2.records 2).map
        (fun m => (m.scope, m.value)) = some (.transient, .obj 2) := by
  decide

/-- C5, evaluated at the failing input: after `dispose()`, the guarded
methods `get`, `set`, `has` and `reset` all throw the disposed error, but
`registerHandler` silently succeeds (the handler really is appended) and a
second `dispose()` also completes silently — both lack the guard, against
the claim, the spec and the source's own comment that any call after
disposal must fail. -/
theorem C5_disposal_guard_gaps :
    (get 20 envT "c" (.str "s") disposedState).1 = .error .containerDisposed ∧
    (set 20 envT "c" { id := some (.str "t"), value := some (.vNum 1) }
        disposedState).1 = .error .containerDisposed ∧
    (has "c" (.str "s") disposedState).1 = .error .containerDisposed ∧
    (reset "c" .resetValue disposedState).1 = .error .containerDisposed ∧
    (registerHandler "c" probeHandler disposedState).1 = .ok () ∧
    (alookup (registerHandler "c" probeHandler disposedState).2.containers
        "c").map (fun c => c.handlers) = some [probeHandler] ∧
    (dispose "c" disposedState).1 = .ok () ∧
    (alookup (dispose "c" disposedState).2.containers "c").map
        (fun c => c.disposed) = some true := by
  decide

/-- Counterexample to C6: a container with `lookupStrategy: allowLookup` but
`allowSingletonLookup: false` asks for an identifier registered on the root
with a container-scoped (non-singleton) class.  The claim asserts the
clone-down fallback still runs and the service resolves; the code throws
`ServiceNotFoundError`, because `allowExternal` — which gates the clone-down
branch as well — is already false. -/
theorem C6_counterexample_clone_down_blocked :
    (gatedLookupScenario initState).1 = .error (.serviceNotFound (.str "X")) := by
  decide

/-- C6 as amended: `allowSingletonLookup: false` disables all root-container
lookup inside `get` — the singleton shortcut and the clone-down fallback
alike — so such a container resolves only locally-registered records.  The
conjuncts: the root-registered container-scoped class is not found; a
root-registered singleton is not found either; a local registration still
resolves; and with `allowSingletonLookup` left at its default the same
root-registered class does clone down and resolve. -/
theorem C6_amended_lookup_gating :
    (gatedLookupScenario initState).1 = .error (.serviceNotFound (.str "X")) ∧
    (gatedSingletonScenario initState).1 = .error (.serviceNotFound (.str "S")) ∧
    (gatedLocalScenario initState).1 = .ok (.vNum 42) ∧
    (ungatedLookupScenario initState).1 = .ok (.obj 0) := by
  decide

/-- Counterexample to C7: id X is registered on a non-root intermediate
parent (c1, a child of the root) and requested from c1's child c2, which has
the default `allowLookup` strategy and no local record.  The claim asserts
the service resolves via the parent chain; the code throws
`ServiceNotFoundError`, because `get` only ever consults the local store and
the default/root container. -/
theorem C7_counterexample_intermediate_parent :
    (intermediateParentScenario initState).1 =
      .error (.serviceNotFound (.str "X")) := by
  decide

/-- C7 as amended: the cross-container fallback of `get` consults only the
default/root container, not intermediate ancestors.  A child with the
default `allowLookup` strategy and no local record resolves an id registered
on the root (first conjunct); the same lookup under `localOnly` throws
not-found (second); and an id registered only on a non-root intermediate
parent is not found from that parent's child (third). -/
theorem C7_amended_root_only_fallback :
    (rootFallbackScenario initState).1 = .ok (.obj 0) ∧
    (localOnlyScenario initState).1 = .error (.serviceNotFound (.str "X")) ∧
    (intermediateParentScenario initState).1 =
      .error (.serviceNotFound (.str "X")) := by
  decide

/-- Counterexample to C8: container c1 holds a record registered with only a
literal value (id v, value 42, no type, no factory).  After
`reset({strategy: resetValue})` the record still holds 42 — its instance was
not disposed and its value was not reset, against the claim's "disposes each
record's instance": `disposeServiceInstance` skips any record it cannot
re-create. -/
theorem C8_counterexample_value_only_record :
    (alookup resetValueState.records 1).map
        (fun m => (m.id, m.type, m.factory, m.value)) =
      some (.str "v", none, none, .vNum 42) := by
  decide

/-- C8 as amended: `resetValue` disposes and resets the instance of each
re-creatable record (one with a type or factory) back to `EMPTY`, leaves the
values of records holding only a literal untouched, and keeps the record
store, the multi-registration map and the handler list unchanged;
`resetServices` additionally clears the calling container's record store,
multi-registration map and its own handler list only — the unrelated
container c2 keeps its handler under both strategies. -/
theorem C8_amended_reset_semantics :
    (alookup resetValueState.records 0).map (fun m => m.value) = some .empty ∧
    (alookup resetValueState.records 1).map (fun m => m.value) =
      some (.vNum 42) ∧
    (alookup resetValueState.records 2).map (fun m => m.value) =
      some (.vNum 7) ∧
    (alookup resetValueState.containers "c1").map (fun c => c.metadataMap) =
      some [(.str "a", 0), (.str "v", 1), (.tok 0, 2)] ∧
    (alookup resetValueState.containers "c1").map (fun c => c.multiServiceIds) =
      some [(.str "m", .container, [.tok 0])] ∧
    (alookup resetValueState.containers "c1").map (fun c => c.handlers) =
      some [resetHandler1] ∧
    (alookup resetServicesState.containers "c1").map (fun c => c.metadataMap) =
      some [] ∧
    (alookup resetServicesState.containers "c1").map
        (fun c => c.multiServiceIds) = some [] ∧
    (alookup resetServicesState.containers "c1").map (fun c => c.handlers) =
      some [] ∧
    (alookup resetValueState.containers "c2").map (fun c => c.handlers) =
      some [resetHandler2] ∧
    (alookup resetServicesState.containers "c2").map (fun c => c.handlers) =
      some [resetHandler2] := by
  refine ⟨?_, ?_, ?_, ?_, ?_, ?_, ?_, ?_, ?_, ?_, ?_⟩ <;> decide

/-- C9: `has` consults only the container's own record store and
multi-registration map.  With id S registered (as a singleton value) only in
the default container, `has` on the child container c answers false while
the immediately following `get` on the very same container succeeds with the
stored value — so a false `has` does not imply that `get` throws. -/
theorem C9_has_local_only :
    (hasVsGetScenario initState).1 = .ok (false, .vStr "v") := by
  decide

/-- C10: registering an explicit falsy literal value stores that exact value
— the caller-supplied `value` property is spread over the
`value || EMPTY_VALUE` defaulting — and the following `get` returns it
unchanged instead of attempting factory or constructor instantiation.
Stated for every falsy value distinct from the `EMPTY` sentinel, which
covers the claim's 0, false, empty string and null. -/
theorem C10_falsy_literal_roundtrip :
    ∀ (v : Value), truthy v = false → v ≠ .empty →
      (literalValueScenario v initState).1 = .ok v ∧
      (alookup (literalValueScenario v initState).2.records 0).map
          (fun m => m.value) = some v := by
  intro v hfalsy hne
  constructor
  · simp [literalValueScenario, set, get, ops, stepOps, setF, setStoreF, getF,
          getServiceValueF, bind_apply, pure_apply, getCtr, getRecord, readS,
          modifyS, modifyCtr, updateCtr, allocRecord, initState, alookup, aset,
          mkContainer, hne, throwE]
  · simp [literalValueScenario, set, get, ops, stepOps, setF, setStoreF, getF,
          getServiceValueF, bind_apply, pure_apply, getCtr, getRecord, readS,
          modifyS, modifyCtr, updateCtr, allocRecord, initState, alookup, aset,
          mkContainer, hne, throwE]

/-- Witness for C10: the falsy literal 0 survives registration and
resolution unchanged. -/
theorem C10_falsy_literal_roundtrip_witness :
    (literalValueScenario (.vNum 0) initState).1 = .ok (.vNum 0) ∧
    (alookup (literalValueScenario (.vNum 0) initState).2.records 0).map
        (fun m => m.value) = some (.vNum 0) :=
  C10_falsy_literal_roundtrip (.vNum 0) (by decide) (by decide)

end Depi
